import Mathlib

/-!
Shallow embedding of the TRADEco reservation/transaction core:
`src/backend/models/product.py`, `src/backend/models/transaction.py` and
`src/backend/routes/transactions.py`.

Modelling conventions:
* a MongoDB collection is an association list `List (String × doc)` keyed by
  the document id string; `find_one({"_id": …})` is `findDoc`, and
  `update_one(filter, {"$set"/"$push": …})` is `updateWhere` (first match,
  returns `modified_count > 0` as a `Bool`);
* `ObjectId(s)` raising `InvalidId` on a malformed id string is modelled by
  `validObjectId` (24 hexadecimal characters), so `find_by_id` — which wraps
  the conversion in try/except — returns `none` on a malformed id;
* `datetime.utcnow()` is an explicit `now : Nat` argument (a single call of a
  Python method may read the clock several times; those reads land within the
  same request and are modelled as one instant);
* `secrets.choice` draws are supplied by an entropy stream `rng : Nat → Nat`,
  each draw taken modulo the alphabet size, and the unbounded regenerate-on-
  collision loop of `Transaction.create` is given fuel — `none` models the
  loop not returning;
* monetary values (`precio`) are opaque to every claim and carried as `Int`.
-/

namespace TRADEco

/-- Product states: `Product.STATUS` in product.py. -/
inductive PStatus
  | disponible
  | reservado
  | vendido
  | inactivo
deriving DecidableEq

/-- Transaction states: `Transaction.STATUS` in transaction.py. -/
inductive TStatus
  | pendiente
  | confirmada
  | pago_confirmado
  | completada
  | cancelada
  | en_disputa
deriving DecidableEq

/-- The string MongoDB stores for each product state (used in one route message). -/
def PStatus.str : PStatus → String
  | .disponible => "disponible"
  | .reservado => "reservado"
  | .vendido => "vendido"
  | .inactivo => "inactivo"

/-- A product document as `Product.create` shapes it. -/
structure Product where
  nombre : String
  descripcion : String
  precio : Int
  talla : String
  categoria : String
  imagen_url : String
  user_id : String
  username : String
  estado : PStatus
  stock : Nat
  reserved_by : Option String
  transaction_id : Option String
  views : Nat
  created_at : Nat
  updated_at : Nat
deriving DecidableEq

/-- The product snapshot embedded in a transaction document. -/
structure Snapshot where
  nombre : String
  descripcion : String
  precio : Int
  categoria : String
  talla : String
  imagen_url : String
deriving DecidableEq

/-- One entry of a transaction's timeline.  The creation entry carries no
`by_user_id` (the Python dict simply lacks the key), hence the `Option`. -/
structure TimelineEvent where
  status : TStatus
  timestamp : Nat
  message : String
  by_user_id : Option String
deriving DecidableEq

/-- A transaction document as `Transaction.create` shapes it. -/
structure Transaction where
  transaction_code : String
  product_id : String
  buyer_id : String
  seller_id : String
  product_snapshot : Snapshot
  status : TStatus
  timeline : List TimelineEvent
  seller_confirmed : Bool
  buyer_paid : Bool
  notes : String
  payment_method : String
  created_at : Nat
  updated_at : Nat
  expires_at : Option Nat
  completed_at : Option Nat
deriving DecidableEq

abbrev ProdCol := List (String × Product)

abbrev TxnCol := List (String × Transaction)

/-- The persistent store the routes read and write. -/
structure DB where
  products : ProdCol
  transactions : TxnCol
deriving DecidableEq

/-- `collection.find_one({"_id": k})`: first document with the given id. -/
def findDoc {α : Type} (l : List (String × α)) (k : String) : Option α :=
  match l with
  | [] => none
  | (k0, v) :: rest => if k0 = k then some v else findDoc rest k

/-- `collection.update_one({"_id": k, …cond}, {"$set"/"$push": f})`: rewrite the
first document with id `k` that satisfies the rest of the filter; the `Bool`
is `modified_count > 0`. -/
def updateWhere {α : Type} (l : List (String × α)) (k : String) (cond : α → Bool)
    (f : α → α) : List (String × α) × Bool :=
  match l with
  | [] => ([], false)
  | (k0, v) :: rest =>
    if k0 = k then
      if cond v then ((k0, f v) :: rest, true) else ((k0, v) :: rest, false)
    else
      let r := updateWhere rest k cond f
      ((k0, v) :: r.1, r.2)

/-- A well-formed `bson.ObjectId` string: 24 hexadecimal characters.
`ObjectId(s)` raises `InvalidId` for anything else. -/
def isHexChar (c : Char) : Bool :=
  c.isDigit || (('a' ≤ c && c ≤ 'f') || ('A' ≤ c && c ≤ 'F'))

def validObjectId (s : String) : Bool :=
  decide (s.length = 24) && s.toList.all isHexChar

/-! ## Product model (product.py) -/

/-- `Product.find_by_id`: `ObjectId(product_id)` inside try/except, then
`find_one` — a malformed id yields `None`. -/
def Product.find_by_id (ps : ProdCol) (product_id : String) : Option Product :=
  if validObjectId product_id then findDoc ps product_id else none

/-- The document `Product.create` inserts (status `disponible`, stock 1,
`reserved_by` and `transaction_id` absent). -/
def Product.createData (nombre descripcion : String) (precio : Int)
    (talla categoria imagen_url username : String) (user_id : String) (now : Nat) :
    Product :=
  { nombre := nombre
    descripcion := descripcion
    precio := precio
    talla := talla
    categoria := categoria
    imagen_url := imagen_url
    user_id := user_id
    username := username
    estado := PStatus.disponible
    stock := 1
    reserved_by := none
    transaction_id := none
    views := 0
    created_at := now
    updated_at := now }

/-- The `$set` document of `Product.reserve`. -/
def Product.reserveDoc (buyer_id transaction_id : String) (now : Nat) (q : Product) :
    Product :=
  { q with estado := PStatus.reservado
           reserved_by := some buyer_id
           transaction_id := some transaction_id
           updated_at := now }

/-- `Product.reserve`: fails when the product is absent, not `disponible`, or
owned by the buyer; otherwise a conditional update filtered on
`estado = disponible` (the compare-and-swap of the reservation). -/
def Product.reserve (ps : ProdCol) (product_id buyer_id transaction_id : String)
    (now : Nat) : Bool × ProdCol :=
  match Product.find_by_id ps product_id with
  | none => (false, ps)
  | some product =>
    if product.estado ≠ PStatus.disponible then (false, ps)
    else if product.user_id = buyer_id then (false, ps)
    else
      let r := updateWhere ps product_id (fun q => decide (q.estado = PStatus.disponible))
        (Product.reserveDoc buyer_id transaction_id now)
      (r.2, r.1)

/-- The `$set` document of `Product.unreserve`. -/
def Product.unreserveDoc (now : Nat) (q : Product) : Product :=
  { q with estado := PStatus.disponible
           reserved_by := none
           transaction_id := none
           updated_at := now }

/-- `Product.unreserve`: unconditionally release a reservation. -/
def Product.unreserve (ps : ProdCol) (product_id : String) (now : Nat) :
    Bool × ProdCol :=
  let r := updateWhere ps product_id (fun _ => true) (Product.unreserveDoc now)
  (r.2, r.1)

/-- The `$set` document of `Product.mark_as_sold`.  Note: it does NOT touch
`reserved_by`. -/
def Product.markSoldDoc (transaction_id : String) (now : Nat) (q : Product) :
    Product :=
  { q with estado := PStatus.vendido
           stock := 0
           transaction_id := some transaction_id
           updated_at := now }

/-- `Product.mark_as_sold`: unconditionally mark the product sold. -/
def Product.mark_as_sold (ps : ProdCol) (product_id transaction_id : String)
    (now : Nat) : Bool × ProdCol :=
  let r := updateWhere ps product_id (fun _ => true)
    (Product.markSoldDoc transaction_id now)
  (r.2, r.1)

/-! ## Transaction model (transaction.py) -/

/-- `Transaction.find_by_id` (try/except around `ObjectId`, as for products). -/
def Transaction.find_by_id (ts : TxnCol) (transaction_id : String) :
    Option Transaction :=
  if validObjectId transaction_id then findDoc ts transaction_id else none

/-- `string.ascii_uppercase + string.digits`, the alphabet of
`_generate_transaction_code`. -/
def codeChars : List Char := "ABCDEFGHIJKLMNOPQRSTUVWXYZ0123456789".toList

/-- One `secrets.choice(chars)` draw: the entropy stream gives a number, taken
modulo the alphabet size. -/
def pickChar (rand : Nat) : Char :=
  codeChars.get ⟨rand % codeChars.length, Nat.mod_lt _ (by decide)⟩

/-- `Transaction._generate_transaction_code`, for the `attempt`-th call on this
request: `"TRD-"` plus 6 drawn characters. -/
def generate_transaction_code (rng : Nat → Nat) (attempt : Nat) : String :=
  "TRD-" ++ String.mk ((List.range 6).map (fun i => pickChar (rng (6 * attempt + i))))

/-- `find_one({"transaction_code": code})` read as a truth value. -/
def codeExists (ts : TxnCol) (code : String) : Bool :=
  ts.any (fun doc => decide (doc.2.transaction_code = code))

/-- The regenerate-while-collision loop of `Transaction.create`.  The Python
loop is unbounded; `fuel` bounds how many draws are examined and `none`
models the loop not returning. -/
def genUniqueCode (ts : TxnCol) (rng : Nat → Nat) : Nat → Nat → Option String
  | 0, _ => none
  | fuel + 1, attempt =>
    let code := generate_transaction_code rng attempt
    if codeExists ts code then genUniqueCode ts rng fuel (attempt + 1)
    else some code

/-- The document `Transaction.create` inserts: status `pendiente`, a one-entry
timeline ("Reserva creada", no acting user), both confirmation flags false,
`completed_at` absent, and a snapshot of the product for the receipt. -/
def Transaction.createData (product_id buyer_id seller_id : String)
    (product_data : Product) (transaction_code : String) (now : Nat) : Transaction :=
  { transaction_code := transaction_code
    product_id := product_id
    buyer_id := buyer_id
    seller_id := seller_id
    product_snapshot :=
      { nombre := product_data.nombre
        descripcion := product_data.descripcion
        precio := product_data.precio
        categoria := product_data.categoria
        talla := product_data.talla
        imagen_url := product_data.imagen_url }
    status := TStatus.pendiente
    timeline := [{ status := TStatus.pendiente
                   timestamp := now
                   message := "Reserva creada"
                   by_user_id := none }]
    seller_confirmed := false
    buyer_paid := false
    notes := ""
    payment_method := ""
    created_at := now
    updated_at := now
    expires_at := none
    completed_at := none }

/-- `Transaction.create`: draw a code until it collides with no stored one,
insert the new document under the store-generated id `new_id`, return
`(inserted id, code, new collection)`. -/
def Transaction.create (ts : TxnCol) (product_id buyer_id seller_id : String)
    (product_data : Product) (rng : Nat → Nat) (fuel : Nat) (new_id : String)
    (now : Nat) : Option (String × String × TxnCol) :=
  match genUniqueCode ts rng fuel 0 with
  | none => none
  | some code =>
    some (new_id, code,
      ts ++ [(new_id, Transaction.createData product_id buyer_id seller_id
        product_data code now)])

/-- The `$set`/`$push` update of `Transaction.update_status`: new status, one
timeline entry, `updated_at` refreshed, and `completed_at` stamped exactly
when the new status is `completada`. -/
def Transaction.statusUpdateDoc (new_status : TStatus) (message user_id : String)
    (now : Nat) (t : Transaction) : Transaction :=
  { t with status := new_status
           updated_at := now
           completed_at := if new_status = TStatus.completada then some now
                           else t.completed_at
           timeline := t.timeline ++ [{ status := new_status
                                        timestamp := now
                                        message := message
                                        by_user_id := some user_id }] }

/-- `Transaction.update_status`: absent transaction or a caller who is neither
buyer nor seller fails; otherwise the status update lands. -/
def Transaction.update_status (ts : TxnCol) (transaction_id : String)
    (new_status : TStatus) (message user_id : String) (now : Nat) : Bool × TxnCol :=
  match Transaction.find_by_id ts transaction_id with
  | none => (false, ts)
  | some transaction =>
    if user_id ≠ transaction.buyer_id ∧ user_id ≠ transaction.seller_id then
      (false, ts)
    else
      let r := updateWhere ts transaction_id (fun _ => true)
        (Transaction.statusUpdateDoc new_status message user_id now)
      (r.2, r.1)

/-- The `$set`/`$push` update of `Transaction.seller_confirm`. -/
def Transaction.sellerConfirmDoc (payment_method seller_id : String) (now : Nat)
    (t : Transaction) : Transaction :=
  { t with status := TStatus.confirmada
           seller_confirmed := true
           payment_method := payment_method
           updated_at := now
           timeline := t.timeline ++ [{ status := TStatus.confirmada
                                        timestamp := now
                                        message := "Vendedor confirmó la venta"
                                        by_user_id := some seller_id }] }

/-- `Transaction.seller_confirm`: only the recorded seller may confirm; no
check of the current status. -/
def Transaction.seller_confirm (ts : TxnCol) (transaction_id seller_id : String)
    (payment_method : String) (now : Nat) : Bool × TxnCol :=
  match Transaction.find_by_id ts transaction_id with
  | none => (false, ts)
  | some transaction =>
    if transaction.seller_id ≠ seller_id then (false, ts)
    else
      let r := updateWhere ts transaction_id (fun _ => true)
        (Transaction.sellerConfirmDoc payment_method seller_id now)
      (r.2, r.1)

/-- The `$set`/`$push` update of `Transaction.buyer_confirm_payment`. -/
def Transaction.buyerConfirmDoc (buyer_id : String) (now : Nat)
    (t : Transaction) : Transaction :=
  { t with status := TStatus.pago_confirmado
           buyer_paid := true
           updated_at := now
           timeline := t.timeline ++ [{ status := TStatus.pago_confirmado
                                        timestamp := now
                                        message := "Comprador confirmó el pago"
                                        by_user_id := some buyer_id }] }

/-- `Transaction.buyer_confirm_payment`: only the recorded buyer may confirm;
no check of the current status. -/
def Transaction.buyer_confirm_payment (ts : TxnCol) (transaction_id buyer_id : String)
    (now : Nat) : Bool × TxnCol :=
  match Transaction.find_by_id ts transaction_id with
  | none => (false, ts)
  | some transaction =>
    if transaction.buyer_id ≠ buyer_id then (false, ts)
    else
      let r := updateWhere ts transaction_id (fun _ => true)
        (Transaction.buyerConfirmDoc buyer_id now)
      (r.2, r.1)

/-- `Transaction.complete_transaction`: `update_status` to `completada`. -/
def Transaction.complete_transaction (ts : TxnCol) (transaction_id user_id : String)
    (now : Nat) : Bool × TxnCol :=
  Transaction.update_status ts transaction_id TStatus.completada
    "Transacción completada exitosamente" user_id now

/-- The cancellation message: the reason is appended when one is given
(`if reason` in Python — the empty string is falsy). -/
def Transaction.cancelMessage (reason : String) : String :=
  if reason = "" then "Transacción cancelada"
  else "Transacción cancelada. Motivo: " ++ reason

/-- `Transaction.cancel_transaction`: `update_status` to `cancelada`, the
message carrying the reason when one is given. -/
def Transaction.cancel_transaction (ts : TxnCol) (transaction_id user_id : String)
    (reason : String) (now : Nat) : Bool × TxnCol :=
  Transaction.update_status ts transaction_id TStatus.cancelada
    (Transaction.cancelMessage reason) user_id now

/-- The `$push`/`$set` update of `Transaction.add_note`: one timeline entry
labelled with the current status; the status field itself is untouched.
(`status` is read from the document fetched before the update.) -/
def Transaction.addNoteDoc (status : TStatus) (note user_id : String) (now : Nat)
    (t : Transaction) : Transaction :=
  { t with timeline := t.timeline ++ [{ status := status
                                        timestamp := now
                                        message := "Nota agregada: " ++ note
                                        by_user_id := some user_id }]
           updated_at := now }

/-- `Transaction.add_note`: absent transaction or a caller who is neither buyer
nor seller fails; otherwise append the note entry. -/
def Transaction.add_note (ts : TxnCol) (transaction_id user_id note : String)
    (now : Nat) : Bool × TxnCol :=
  match Transaction.find_by_id ts transaction_id with
  | none => (false, ts)
  | some transaction =>
    if user_id ≠ transaction.buyer_id ∧ user_id ≠ transaction.seller_id then
      (false, ts)
    else
      let r := updateWhere ts transaction_id (fun _ => true)
        (Transaction.addNoteDoc transaction.status note user_id now)
      (r.2, r.1)

/-! ## Routes (routes/transactions.py)

Each handler is modelled up to its JSON envelope: `success`, the HTTP status
code, and the `message` field.  The enrichment of successful responses with
user-profile data (the excluded auth/user components) is not modelled. -/

structure Response where
  success : Bool
  httpStatus : Nat
  message : String
deriving DecidableEq

/-- `POST /reserve` (`create_reservation`).  `product_id = none` models a
request body without the field.  `none` as the overall result models the
code-generation loop of `Transaction.create` not returning (it is the only
path on which the Python handler would not answer). -/
def Routes.create_reservation (db : DB) (current_user_id : String)
    (product_id : Option String) (rng : Nat → Nat) (fuel : Nat) (new_id : String)
    (now : Nat) : Option (Response × DB) :=
  match product_id with
  | none => some ({ success := false, httpStatus := 400,
                    message := "ID de producto requerido" }, db)
  | some pid =>
    match Product.find_by_id db.products pid with
    | none => some ({ success := false, httpStatus := 404,
                      message := "Producto no encontrado" }, db)
    | some product =>
      if product.estado ≠ PStatus.disponible then
        some ({ success := false, httpStatus := 400,
                message := "El producto no está disponible. Estado actual: "
                  ++ product.estado.str }, db)
      else if current_user_id = product.user_id then
        some ({ success := false, httpStatus := 400,
                message := "No puedes comprar tu propio producto" }, db)
      else
        match Transaction.create db.transactions pid current_user_id
          product.user_id product rng fuel new_id now with
        | none => none
        | some (transaction_id, _code, ts1) =>
          let r := Product.reserve db.products pid current_user_id transaction_id now
          if r.1 then
            some ({ success := true, httpStatus := 201,
                    message := "Producto reservado exitosamente" },
                  { products := r.2, transactions := ts1 })
          else
            some ({ success := false, httpStatus := 400,
                    message := "No se pudo reservar el producto" },
                  { products := r.2, transactions := ts1 })

/-- `GET /<transaction_id>` (`get_transaction`), up to the 200 payload. -/
def Routes.get_transaction (db : DB) (current_user_id transaction_id : String) :
    Response :=
  match Transaction.find_by_id db.transactions transaction_id with
  | none => { success := false, httpStatus := 404,
              message := "Transacción no encontrada" }
  | some transaction =>
    if current_user_id ≠ transaction.buyer_id ∧
        current_user_id ≠ transaction.seller_id then
      { success := false, httpStatus := 403,
        message := "No tienes acceso a esta transacción" }
    else
      { success := true, httpStatus := 200, message := "" }

/-- `POST /<transaction_id>/seller-confirm` (`seller_confirm`). -/
def Routes.seller_confirm (db : DB) (current_user_id transaction_id : String)
    (payment_method : String) (now : Nat) : Response × DB :=
  match Transaction.find_by_id db.transactions transaction_id with
  | none => ({ success := false, httpStatus := 404,
               message := "Transacción no encontrada" }, db)
  | some transaction =>
    if transaction.seller_id ≠ current_user_id then
      ({ success := false, httpStatus := 403,
         message := "No tienes permiso para confirmar esta venta" }, db)
    else
      let r := Transaction.seller_confirm db.transactions transaction_id
        current_user_id payment_method now
      if r.1 then
        ({ success := true, httpStatus := 200,
           message := "Venta confirmada exitosamente" },
         { db with transactions := r.2 })
      else
        ({ success := false, httpStatus := 400,
           message := "No se pudo confirmar la venta" },
         { db with transactions := r.2 })

/-- `POST /<transaction_id>/buyer-confirm-payment` (`buyer_confirm_payment`). -/
def Routes.buyer_confirm_payment (db : DB) (current_user_id transaction_id : String)
    (now : Nat) : Response × DB :=
  match Transaction.find_by_id db.transactions transaction_id with
  | none => ({ success := false, httpStatus := 404,
               message := "Transacción no encontrada" }, db)
  | some transaction =>
    if transaction.buyer_id ≠ current_user_id then
      ({ success := false, httpStatus := 403,
         message := "No tienes permiso para confirmar este pago" }, db)
    else
      let r := Transaction.buyer_confirm_payment db.transactions transaction_id
        current_user_id now
      if r.1 then
        ({ success := true, httpStatus := 200,
           message := "Pago confirmado exitosamente" },
         { db with transactions := r.2 })
      else
        ({ success := false, httpStatus := 400,
           message := "No se pudo confirmar el pago" },
         { db with transactions := r.2 })

/-- `POST /<transaction_id>/complete` (`complete_transaction`): 404 when the
transaction is absent, 403 when the caller is no party, 400 unless both
confirmation flags are set; on success the ledger write lands and the product
is marked sold. -/
def Routes.complete_transaction (db : DB) (current_user_id transaction_id : String)
    (now : Nat) : Response × DB :=
  match Transaction.find_by_id db.transactions transaction_id with
  | none => ({ success := false, httpStatus := 404,
               message := "Transacción no encontrada" }, db)
  | some transaction =>
    if current_user_id ≠ transaction.buyer_id ∧
        current_user_id ≠ transaction.seller_id then
      ({ success := false, httpStatus := 403,
         message := "No tienes permiso para completar esta transacción" }, db)
    else if transaction.seller_confirmed = false ∨ transaction.buyer_paid = false then
      ({ success := false, httpStatus := 400,
         message := "Ambas partes deben confirmar antes de completar" }, db)
    else
      let r := Transaction.complete_transaction db.transactions transaction_id
        current_user_id now
      if r.1 then
        let m := Product.mark_as_sold db.products transaction.product_id
          transaction_id now
        ({ success := true, httpStatus := 200,
           message := "Transacción completada exitosamente" },
         { products := m.2, transactions := r.2 })
      else
        ({ success := false, httpStatus := 400,
           message := "No se pudo completar la transacción" },
         { db with transactions := r.2 })

/-- `POST /<transaction_id>/cancel` (`cancel_transaction`): 404 when absent,
403 when the caller is no party; on success the ledger write lands and the
product is released. -/
def Routes.cancel_transaction (db : DB) (current_user_id transaction_id : String)
    (reason : String) (now : Nat) : Response × DB :=
  match Transaction.find_by_id db.transactions transaction_id with
  | none => ({ success := false, httpStatus := 404,
               message := "Transacción no encontrada" }, db)
  | some transaction =>
    if current_user_id ≠ transaction.buyer_id ∧
        current_user_id ≠ transaction.seller_id then
      ({ success := false, httpStatus := 403,
         message := "No tienes permiso para cancelar esta transacción" }, db)
    else
      let r := Transaction.cancel_transaction db.transactions transaction_id
        current_user_id reason now
      if r.1 then
        let m := Product.unreserve db.products transaction.product_id now
        ({ success := true, httpStatus := 200,
           message := "Transacción cancelada exitosamente" },
         { products := m.2, transactions := r.2 })
      else
        ({ success := false, httpStatus := 400,
           message := "No se pudo cancelar la transacción" },
         { db with transactions := r.2 })

/-- `POST /<transaction_id>/note` (`add_note`): 400 when the note is empty
(`if not note`), then the model call, whose failure — absent transaction OR a
caller who is no party — is surfaced as 400, never 403. -/
def Routes.add_note (db : DB) (current_user_id transaction_id note : String)
    (now : Nat) : Response × DB :=
  if note = "" then
    ({ success := false, httpStatus := 400,
       message := "La nota no puede estar vacía" }, db)
  else
    let r := Transaction.add_note db.transactions transaction_id current_user_id
      note now
    if r.1 then
      ({ success := true, httpStatus := 200,
         message := "Nota agregada exitosamente" },
       { db with transactions := r.2 })
    else
      ({ success := false, httpStatus := 400,
         message := "No se pudo agregar la nota" },
       { db with transactions := r.2 })

/-! ## Observers and operation sequences used by the invariant claims -/

/-- The timeline stored for a transaction id ([] when the id is absent). -/
def timelineOf (ts : TxnCol) (transaction_id : String) : List TimelineEvent :=
  ((findDoc ts transaction_id).map Transaction.timeline).getD []

/-- The `completed_at` stored for a transaction id. -/
def completedAtOf (ts : TxnCol) (transaction_id : String) : Option (Option Nat) :=
  (findDoc ts transaction_id).map Transaction.completed_at

/-- One ledger mutation, as invoked through the routes. -/
inductive TxOp
  | upd (new_status : TStatus) (message user_id : String) (now : Nat)
  | sconf (seller_id payment_method : String) (now : Nat)
  | bconf (buyer_id : String) (now : Nat)
  | note (user_id note : String) (now : Nat)

def applyTxOp (ts : TxnCol) (transaction_id : String) : TxOp → TxnCol
  | .upd s m u now => (Transaction.update_status ts transaction_id s m u now).2
  | .sconf u pm now => (Transaction.seller_confirm ts transaction_id u pm now).2
  | .bconf u now => (Transaction.buyer_confirm_payment ts transaction_id u now).2
  | .note u n now => (Transaction.add_note ts transaction_id u n now).2

def applyTxOps (ts : TxnCol) (transaction_id : String) (ops : List TxOp) : TxnCol :=
  ops.foldl (fun acc op => applyTxOp acc transaction_id op) ts

/-- The product-field invariant the workflow operations actually maintain:
a reserved product carries both `reserved_by` and `transaction_id`, and an
available product carries neither.  (The spec's stronger "if and only if"
fails: `mark_as_sold` clears neither field.) -/
def prodFieldsInv (p : Product) : Prop :=
  (p.estado = PStatus.reservado → p.reserved_by ≠ none ∧ p.transaction_id ≠ none) ∧
  (p.estado = PStatus.disponible → p.reserved_by = none ∧ p.transaction_id = none)

/-! ## Concrete store states used by witnesses and counterexamples -/

def pid0 : String := "bbbbbbbbbbbbbbbbbbbbbbbb"

def tid0 : String := "aaaaaaaaaaaaaaaaaaaaaaaa"

def baseProduct : Product :=
  Product.createData "Campera" "abrigo usado" 1500 "M" "Abrigos" "" "vendedor" "seller1" 0

def reservedProduct : Product := Product.reserveDoc "buyer1" tid0 1 baseProduct

def soldProduct : Product := Product.markSoldDoc tid0 5 reservedProduct

def baseTxn : Transaction :=
  Transaction.createData pid0 "buyer1" "seller1" baseProduct "TRD-AAAAAA" 1

def readyTxn : Transaction :=
  { baseTxn with status := TStatus.pago_confirmado
                 seller_confirmed := true
                 buyer_paid := true }

def completedTxn : Transaction :=
  { readyTxn with status := TStatus.completada, completed_at := some 5 }

def cancelledTxn : Transaction :=
  { readyTxn with status := TStatus.cancelada }

def pendingDB : DB :=
  { products := [(pid0, reservedProduct)], transactions := [(tid0, baseTxn)] }

def readyDB : DB :=
  { products := [(pid0, reservedProduct)], transactions := [(tid0, readyTxn)] }

def completedDB : DB :=
  { products := [(pid0, soldProduct)], transactions := [(tid0, completedTxn)] }

/-! ## Store-level lemmas -/

theorem findDoc_updateWhere {α : Type} (l : List (String × α)) (k q : String)
    (cond : α → Bool) (f : α → α) :
    findDoc (updateWhere l k cond f).1 q =
      if q = k then (findDoc l k).map (fun v => if cond v then f v else v)
      else findDoc l q := by
  induction l with
  | nil => simp [findDoc, updateWhere]
  | cons hd tl ih =>
    obtain ⟨k0, v⟩ := hd
    by_cases h0 : k0 = k
    · subst h0
      by_cases hq : k0 = q
      · subst hq
        by_cases hc : cond v <;> simp [updateWhere, findDoc, hc]
      · have hq2 : ¬q = k0 := fun h => hq h.symm
        by_cases hc : cond v <;> simp [updateWhere, findDoc, hc, hq, hq2]
    · by_cases hq : k0 = q
      · subst hq
        simp_all [updateWhere, findDoc]
      · simp_all [updateWhere, findDoc]

theorem updateWhere_snd {α : Type} (l : List (String × α)) (k : String)
    (cond : α → Bool) (f : α → α) :
    (updateWhere l k cond f).2 = ((findDoc l k).map cond).getD false := by
  induction l with
  | nil => simp [findDoc, updateWhere]
  | cons hd tl ih =>
    obtain ⟨k0, v⟩ := hd
    by_cases h0 : k0 = k
    · by_cases hc : cond v <;> simp_all [updateWhere, findDoc]
    · simp_all [updateWhere, findDoc]

theorem Transaction.txn_find_by_id_elim {ts : TxnCol} {transaction_id : String}
    {t : Transaction} (h : Transaction.find_by_id ts transaction_id = some t) :
    validObjectId transaction_id = true ∧ findDoc ts transaction_id = some t := by
  unfold Transaction.find_by_id at h
  by_cases hv : validObjectId transaction_id <;> simp [hv] at h
  exact ⟨hv, h⟩

theorem Product.prod_find_by_id_elim {ps : ProdCol} {product_id : String}
    {p : Product} (h : Product.find_by_id ps product_id = some p) :
    validObjectId product_id = true ∧ findDoc ps product_id = some p := by
  unfold Product.find_by_id at h
  by_cases hv : validObjectId product_id <;> simp [hv] at h
  exact ⟨hv, h⟩

/-! ## Operation-level lemmas -/

theorem Transaction.update_status_spec {ts : TxnCol} {transaction_id user_id : String}
    {t : Transaction} (h : Transaction.find_by_id ts transaction_id = some t)
    (hparty : user_id = t.buyer_id ∨ user_id = t.seller_id)
    (new_status : TStatus) (message : String) (now : Nat) :
    Transaction.update_status ts transaction_id new_status message user_id now
      = (true, (updateWhere ts transaction_id (fun _ => true)
          (Transaction.statusUpdateDoc new_status message user_id now)).1) := by
  have hfd := (Transaction.txn_find_by_id_elim h).2
  have hnp : ¬(user_id ≠ t.buyer_id ∧ user_id ≠ t.seller_id) := by
    rcases hparty with h1 | h1 <;> simp [h1]
  have h2 : (updateWhere ts transaction_id (fun _ => true)
      (Transaction.statusUpdateDoc new_status message user_id now)).2 = true := by
    rw [updateWhere_snd, hfd]; rfl
  simp [Transaction.update_status, h, if_neg hnp, h2]

theorem Transaction.seller_confirm_spec {ts : TxnCol} {transaction_id seller_id : String}
    {t : Transaction} (h : Transaction.find_by_id ts transaction_id = some t)
    (hs : t.seller_id = seller_id) (payment_method : String) (now : Nat) :
    Transaction.seller_confirm ts transaction_id seller_id payment_method now
      = (true, (updateWhere ts transaction_id (fun _ => true)
          (Transaction.sellerConfirmDoc payment_method seller_id now)).1) := by
  have hfd := (Transaction.txn_find_by_id_elim h).2
  have h2 : (updateWhere ts transaction_id (fun _ => true)
      (Transaction.sellerConfirmDoc payment_method seller_id now)).2 = true := by
    rw [updateWhere_snd, hfd]; rfl
  simp [Transaction.seller_confirm, h, hs, h2]

theorem Transaction.buyer_confirm_payment_spec {ts : TxnCol}
    {transaction_id buyer_id : String} {t : Transaction}
    (h : Transaction.find_by_id ts transaction_id = some t)
    (hb : t.buyer_id = buyer_id) (now : Nat) :
    Transaction.buyer_confirm_payment ts transaction_id buyer_id now
      = (true, (updateWhere ts transaction_id (fun _ => true)
          (Transaction.buyerConfirmDoc buyer_id now)).1) := by
  have hfd := (Transaction.txn_find_by_id_elim h).2
  have h2 : (updateWhere ts transaction_id (fun _ => true)
      (Transaction.buyerConfirmDoc buyer_id now)).2 = true := by
    rw [updateWhere_snd, hfd]; rfl
  simp [Transaction.buyer_confirm_payment, h, hb, h2]

theorem Transaction.add_note_spec {ts : TxnCol} {transaction_id user_id : String}
    {t : Transaction} (h : Transaction.find_by_id ts transaction_id = some t)
    (hparty : user_id = t.buyer_id ∨ user_id = t.seller_id)
    (note : String) (now : Nat) :
    Transaction.add_note ts transaction_id user_id note now
      = (true, (updateWhere ts transaction_id (fun _ => true)
          (Transaction.addNoteDoc t.status note user_id now)).1) := by
  have hfd := (Transaction.txn_find_by_id_elim h).2
  have hnp : ¬(user_id ≠ t.buyer_id ∧ user_id ≠ t.seller_id) := by
    rcases hparty with h1 | h1 <;> simp [h1]
  have h2 : (updateWhere ts transaction_id (fun _ => true)
      (Transaction.addNoteDoc t.status note user_id now)).2 = true := by
    rw [updateWhere_snd, hfd]; rfl
  simp [Transaction.add_note, h, if_neg hnp, h2]

theorem Transaction.add_note_not_party {ts : TxnCol} {transaction_id user_id : String}
    {t : Transaction} (h : Transaction.find_by_id ts transaction_id = some t)
    (h1 : user_id ≠ t.buyer_id) (h2 : user_id ≠ t.seller_id)
    (note : String) (now : Nat) :
    Transaction.add_note ts transaction_id user_id note now = (false, ts) := by
  simp [Transaction.add_note, h, h1, h2]

theorem Product.unreserve_findDoc {ps : ProdCol} {product_id : String} {p : Product}
    (h : findDoc ps product_id = some p) (now : Nat) :
    findDoc (Product.unreserve ps product_id now).2 product_id
      = some (Product.unreserveDoc now p) := by
  simp only [Product.unreserve]
  rw [findDoc_updateWhere, if_pos rfl, h]
  rfl

theorem Product.mark_as_sold_findDoc {ps : ProdCol} {product_id : String} {p : Product}
    (h : findDoc ps product_id = some p) (transaction_id : String) (now : Nat) :
    findDoc (Product.mark_as_sold ps product_id transaction_id now).2 product_id
      = some (Product.markSoldDoc transaction_id now p) := by
  simp only [Product.mark_as_sold]
  rw [findDoc_updateWhere, if_pos rfl, h]
  rfl

/-! ## The claims -/

/-- C10: a string that is not a well-formed object id makes `find_by_id`
return `None` (the `try/except` around `ObjectId`) for both models, so the
lookup routes answer 404 NotFound instead of raising. -/
theorem C10_malformed_id_yields_not_found (s : String)
    (h : validObjectId s = false) :
    (∀ ts : TxnCol, Transaction.find_by_id ts s = none) ∧
    (∀ ps : ProdCol, Product.find_by_id ps s = none) ∧
    (∀ (db : DB) (current_user_id : String),
      Routes.get_transaction db current_user_id s
        = { success := false, httpStatus := 404,
            message := "Transacción no encontrada" }) := by
  refine ⟨fun ts => ?_, fun ps => ?_, fun db current_user_id => ?_⟩
  · simp [Transaction.find_by_id, h]
  · simp [Product.find_by_id, h]
  · simp [Routes.get_transaction, Transaction.find_by_id, h]

/-- C10 witness: the malformed id "nope" is rejected everywhere. -/
theorem C10_malformed_id_witness :
    (∀ ts : TxnCol, Transaction.find_by_id ts "nope" = none) ∧
    (∀ ps : ProdCol, Product.find_by_id ps "nope" = none) ∧
    (∀ (db : DB) (current_user_id : String),
      Routes.get_transaction db current_user_id "nope"
        = { success := false, httpStatus := 404,
            message := "Transacción no encontrada" }) :=
  C10_malformed_id_yields_not_found "nope" (by decide)

/-- C5: `Product.reserve` on an absent product, a product whose status is not
`disponible`, or a self-purchase returns `False` and leaves the collection
untouched; the route surfaces the unavailable case as a 400 with the store
unchanged. -/
theorem C5_reserve_fails_without_mutation (ps : ProdCol) (db : DB)
    (product_id buyer_id transaction_id : String) (now : Nat) :
    (Product.find_by_id ps product_id = none →
      Product.reserve ps product_id buyer_id transaction_id now = (false, ps)) ∧
    (∀ p, Product.find_by_id ps product_id = some p →
      p.estado ≠ PStatus.disponible →
      Product.reserve ps product_id buyer_id transaction_id now = (false, ps)) ∧
    (∀ p, Product.find_by_id ps product_id = some p → p.user_id = buyer_id →
      Product.reserve ps product_id buyer_id transaction_id now = (false, ps)) ∧
    (∀ p, Product.find_by_id db.products product_id = some p →
      p.estado ≠ PStatus.disponible →
      ∀ rng fuel new_id,
        Routes.create_reservation db buyer_id (some product_id) rng fuel new_id now
          = some ({ success := false, httpStatus := 400,
                    message := "El producto no está disponible. Estado actual: "
                      ++ p.estado.str }, db)) := by
  refine ⟨fun h => ?_, fun p h hne => ?_, fun p h huser => ?_,
    fun p h hne rng fuel new_id => ?_⟩
  · simp [Product.reserve, h]
  · simp [Product.reserve, h, hne]
  · by_cases hne : p.estado ≠ PStatus.disponible
    · simp [Product.reserve, h, hne]
    · simp [Product.reserve, h, hne, huser]
  · simp [Routes.create_reservation, h, hne]

/-- C4 (the code side): the code never checks the current status, so a
transaction already in the terminal status `cancelada` is moved to
`confirmada` by `seller_confirm` — terminal states are not permanent in the
implementation. -/
theorem C4_terminal_status_overwritten :
    cancelledTxn.status = TStatus.cancelada ∧
    (Transaction.seller_confirm [(tid0, cancelledTxn)] tid0 "seller1"
      "efectivo" 9).1 = true ∧
    (findDoc (Transaction.seller_confirm [(tid0, cancelledTxn)] tid0 "seller1"
        "efectivo" 9).2 tid0).map Transaction.status
      = some TStatus.confirmada := by decide

/-- C1: with the transaction present, the caller a party and the linked
product stored, Complete answers 400 InvalidState unless both
`seller_confirmed` and `buyer_paid` hold (leaving the store untouched); when
both hold it sets the status to `completada`, stamps `completed_at`, and
marks the product `vendido` with stock 0. -/
theorem C1_complete_requires_both_confirmations (db : DB)
    (current_user_id transaction_id : String) (now : Nat)
    (t : Transaction) (p : Product)
    (ht : Transaction.find_by_id db.transactions transaction_id = some t)
    (hparty : current_user_id = t.buyer_id ∨ current_user_id = t.seller_id)
    (hp : findDoc db.products t.product_id = some p) :
    (¬(t.seller_confirmed = true ∧ t.buyer_paid = true) →
      Routes.complete_transaction db current_user_id transaction_id now
        = ({ success := false, httpStatus := 400,
             message := "Ambas partes deben confirmar antes de completar" }, db)) ∧
    (t.seller_confirmed = true → t.buyer_paid = true →
      (Routes.complete_transaction db current_user_id transaction_id now).1
        = { success := true, httpStatus := 200,
            message := "Transacción completada exitosamente" } ∧
      (∃ t2, findDoc (Routes.complete_transaction db current_user_id
            transaction_id now).2.transactions transaction_id = some t2 ∧
        t2.status = TStatus.completada ∧ t2.completed_at = some now) ∧
      (∃ p2, findDoc (Routes.complete_transaction db current_user_id
            transaction_id now).2.products t.product_id = some p2 ∧
        p2.estado = PStatus.vendido ∧ p2.stock = 0)) := by
  have hnp : ¬(current_user_id ≠ t.buyer_id ∧ current_user_id ≠ t.seller_id) := by
    rcases hparty with h1 | h1 <;> simp [h1]
  have hfd := (Transaction.txn_find_by_id_elim ht).2
  constructor
  · intro hflags
    have hcond : t.seller_confirmed = false ∨ t.buyer_paid = false := by
      cases hsc : t.seller_confirmed <;> cases hbp : t.buyer_paid <;> simp_all
    simp [Routes.complete_transaction, ht, if_neg hnp, hcond]
  · intro hsc hbp
    have hcond : ¬(t.seller_confirmed = false ∨ t.buyer_paid = false) := by
      simp [hsc, hbp]
    have hmodel := Transaction.update_status_spec ht hparty TStatus.completada
      "Transacción completada exitosamente" now
    have hroute : Routes.complete_transaction db current_user_id transaction_id now
        = ({ success := true, httpStatus := 200,
             message := "Transacción completada exitosamente" },
           { products := (Product.mark_as_sold db.products t.product_id
               transaction_id now).2,
             transactions := (updateWhere db.transactions transaction_id
               (fun _ => true)
               (Transaction.statusUpdateDoc TStatus.completada
                 "Transacción completada exitosamente" current_user_id now)).1 }) := by
      simp [Routes.complete_transaction, ht, if_neg hnp, hcond,
        Transaction.complete_transaction, hmodel]
    rw [hroute]
    refine ⟨rfl,
      ⟨Transaction.statusUpdateDoc TStatus.completada
          "Transacción completada exitosamente" current_user_id now t, ?_, rfl, ?_⟩,
      ⟨Product.markSoldDoc transaction_id now p,
        Product.mark_as_sold_findDoc hp transaction_id now, rfl, rfl⟩⟩
    · rw [findDoc_updateWhere, if_pos rfl, hfd]
      rfl
    · simp [Transaction.statusUpdateDoc]

/-- C1 witness: on a store whose transaction has both confirmations, the
buyer's Complete answers 200. -/
theorem C1_complete_witness :
    (Routes.complete_transaction readyDB "buyer1" tid0 9).1
      = { success := true, httpStatus := 200,
          message := "Transacción completada exitosamente" } :=
  ((C1_complete_requires_both_confirmations readyDB "buyer1" tid0 9 readyTxn
      reservedProduct (by decide) (by decide) (by decide)).2 rfl rfl).1

/-- C2: with the transaction present and non-terminal, the caller a party and
the linked product stored, Cancel answers 200, sets the transaction status to
`cancelada` and releases the product: `disponible` with `reserved_by` and
`transaction_id` cleared. -/
theorem C2_cancel_releases_product (db : DB)
    (current_user_id transaction_id reason : String) (now : Nat)
    (t : Transaction) (p : Product)
    (ht : Transaction.find_by_id db.transactions transaction_id = some t)
    (_hterm : t.status ≠ TStatus.completada ∧ t.status ≠ TStatus.cancelada)
    (hparty : current_user_id = t.buyer_id ∨ current_user_id = t.seller_id)
    (hp : findDoc db.products t.product_id = some p) :
    (Routes.cancel_transaction db current_user_id transaction_id reason now).1
      = { success := true, httpStatus := 200,
          message := "Transacción cancelada exitosamente" } ∧
    (∃ t2, findDoc (Routes.cancel_transaction db current_user_id transaction_id
          reason now).2.transactions transaction_id = some t2 ∧
      t2.status = TStatus.cancelada) ∧
    (∃ p2, findDoc (Routes.cancel_transaction db current_user_id transaction_id
          reason now).2.products t.product_id = some p2 ∧
      p2.estado = PStatus.disponible ∧ p2.reserved_by = none ∧
      p2.transaction_id = none) := by
  have hnp : ¬(current_user_id ≠ t.buyer_id ∧ current_user_id ≠ t.seller_id) := by
    rcases hparty with h1 | h1 <;> simp [h1]
  have hfd := (Transaction.txn_find_by_id_elim ht).2
  have hmodel := Transaction.update_status_spec ht hparty TStatus.cancelada
    (Transaction.cancelMessage reason) now
  have hroute : Routes.cancel_transaction db current_user_id transaction_id reason now
      = ({ success := true, httpStatus := 200,
           message := "Transacción cancelada exitosamente" },
         { products := (Product.unreserve db.products t.product_id now).2,
           transactions := (updateWhere db.transactions transaction_id
             (fun _ => true)
             (Transaction.statusUpdateDoc TStatus.cancelada
               (Transaction.cancelMessage reason) current_user_id now)).1 }) := by
    simp [Routes.cancel_transaction, ht, if_neg hnp,
      Transaction.cancel_transaction, hmodel]
  rw [hroute]
  refine ⟨rfl,
    ⟨Transaction.statusUpdateDoc TStatus.cancelada
        (Transaction.cancelMessage reason) current_user_id now t, ?_, rfl⟩,
    ⟨Product.unreserveDoc now p, Product.unreserve_findDoc hp now, rfl, rfl, rfl⟩⟩
  rw [findDoc_updateWhere, if_pos rfl, hfd]
  rfl

/-- C2 witness: the buyer cancels a pending reservation and the product is
released. -/
theorem C2_cancel_witness :
    (Routes.cancel_transaction pendingDB "buyer1" tid0 "me arrepentí" 3).1
      = { success := true, httpStatus := 200,
          message := "Transacción cancelada exitosamente" } :=
  (C2_cancel_releases_product pendingDB "buyer1" tid0 "me arrepentí" 3 baseTxn
    reservedProduct (by decide) (by decide) (by decide) (by decide)).1

/-- C3 counterexample: `mark_as_sold` does not clear `reserved_by`, so a sold
product still carries both `reserved_by` and `transaction_id` — the claimed
"if and only if" between `status = reserved` and the presence of both fields
is false after selling a reserved product. -/
theorem C3_sold_product_keeps_reserved_by :
    ∃ p2, findDoc (Product.mark_as_sold [(pid0, reservedProduct)] pid0 tid0 5).2
        pid0 = some p2 ∧
      p2.estado = PStatus.vendido ∧ p2.reserved_by = some "buyer1" ∧
      p2.transaction_id = some tid0 ∧
      ¬(p2.estado = PStatus.reservado ↔
        (p2.reserved_by.isSome = true ∧ p2.transaction_id.isSome = true)) := by
  refine ⟨Product.markSoldDoc tid0 5 reservedProduct, ?_, ?_, ?_, ?_, ?_⟩ <;> decide

theorem prodFieldsInv_updateWhere {ps : ProdCol}
    (hinv : ∀ k p, findDoc ps k = some p → prodFieldsInv p)
    {pid : String} {cond : Product → Bool} {f : Product → Product}
    (hf : ∀ v, prodFieldsInv (f v)) :
    ∀ k p2, findDoc (updateWhere ps pid cond f).1 k = some p2 → prodFieldsInv p2 := by
  intro k p2 h2
  rw [findDoc_updateWhere] at h2
  by_cases hk : k = pid
  · rw [if_pos hk] at h2
    cases hv : findDoc ps pid with
    | none => rw [hv] at h2; exact absurd h2 (by simp)
    | some v =>
      rw [hv] at h2
      by_cases hc : cond v
      · simp only [Option.map_some', hc, if_pos, Option.some.injEq] at h2
        exact h2 ▸ hf v
      · simp only [Option.map_some', hc, if_neg, Option.some.injEq] at h2
        exact h2 ▸ hinv pid v hv
  · rw [if_neg hk] at h2
    exact hinv k p2 h2

/-- C3 amended: what the three workflow operations really maintain, from any
collection satisfying it: a reserved product carries both `reserved_by` and
`transaction_id`, and an available product carries neither (so no operation
leaves a product available with `reserved_by` still set); a newly created
product satisfies it.  The spec's "if and only if" direction fails, because
`mark_as_sold` clears neither field (see the counterexample). -/
theorem C3_field_invariant_preserved (ps : ProdCol)
    (hinv : ∀ k p, findDoc ps k = some p → prodFieldsInv p) :
    (∀ product_id buyer_id transaction_id now k p2,
      findDoc (Product.reserve ps product_id buyer_id transaction_id now).2 k
        = some p2 → prodFieldsInv p2) ∧
    (∀ product_id now k p2,
      findDoc (Product.unreserve ps product_id now).2 k = some p2 →
        prodFieldsInv p2) ∧
    (∀ product_id transaction_id now k p2,
      findDoc (Product.mark_as_sold ps product_id transaction_id now).2 k
        = some p2 → prodFieldsInv p2) ∧
    (∀ nombre descripcion precio talla categoria imagen_url username user_id now,
      prodFieldsInv (Product.createData nombre descripcion precio talla categoria
        imagen_url username user_id now)) := by
  refine ⟨?_, ?_, ?_, ?_⟩
  · intro product_id buyer_id transaction_id now k p2 h2
    cases hfind : Product.find_by_id ps product_id with
    | none =>
      simp only [Product.reserve, hfind] at h2
      exact hinv k p2 h2
    | some product =>
      simp only [Product.reserve, hfind] at h2
      by_cases he : product.estado ≠ PStatus.disponible
      · rw [if_pos he] at h2
        exact hinv k p2 h2
      · rw [if_neg he] at h2
        by_cases hu : product.user_id = buyer_id
        · rw [if_pos hu] at h2
          exact hinv k p2 h2
        · rw [if_neg hu] at h2
          refine prodFieldsInv_updateWhere hinv ?_ k p2 h2
          intro v
          exact ⟨fun _ => ⟨by simp [Product.reserveDoc], by simp [Product.reserveDoc]⟩,
            fun hcontra => absurd hcontra (by simp [Product.reserveDoc])⟩
  · intro product_id now k p2 h2
    refine prodFieldsInv_updateWhere hinv ?_ k p2 h2
    intro v
    exact ⟨fun hcontra => absurd hcontra (by simp [Product.unreserveDoc]),
      fun _ => ⟨rfl, rfl⟩⟩
  · intro product_id transaction_id now k p2 h2
    refine prodFieldsInv_updateWhere hinv ?_ k p2 h2
    intro v
    exact ⟨fun hcontra => absurd hcontra (by simp [Product.markSoldDoc]),
      fun hcontra => absurd hcontra (by simp [Product.markSoldDoc])⟩
  · intro nombre descripcion precio talla categoria imagen_url username user_id now
    exact ⟨fun hcontra => absurd hcontra (by simp [Product.createData]),
      fun _ => ⟨rfl, rfl⟩⟩

/-- C3 witness: the invariant is preserved from a one-product available store. -/
theorem C3_field_invariant_witness :
    (∀ product_id buyer_id transaction_id now k p2,
      findDoc (Product.reserve [(pid0, baseProduct)] product_id buyer_id
          transaction_id now).2 k = some p2 → prodFieldsInv p2) ∧
    (∀ product_id now k p2,
      findDoc (Product.unreserve [(pid0, baseProduct)] product_id now).2 k
        = some p2 → prodFieldsInv p2) ∧
    (∀ product_id transaction_id now k p2,
      findDoc (Product.mark_as_sold [(pid0, baseProduct)] product_id
          transaction_id now).2 k = some p2 → prodFieldsInv p2) ∧
    (∀ nombre descripcion precio talla categoria imagen_url username user_id now,
      prodFieldsInv (Product.createData nombre descripcion precio talla categoria
        imagen_url username user_id now)) :=
  C3_field_invariant_preserved [(pid0, baseProduct)] (by
    intro k p h
    by_cases hk : pid0 = k
    · simp only [findDoc, if_pos hk, Option.some.injEq] at h
      subst h
      exact ⟨fun hcontra => absurd hcontra (by decide), fun _ => ⟨rfl, rfl⟩⟩
    · simp [findDoc, hk] at h)

theorem Transaction.update_status_cases (ts : TxnCol) (tid : String) (s : TStatus)
    (m u : String) (now : Nat) :
    Transaction.update_status ts tid s m u now = (false, ts) ∨
    ∃ t, Transaction.find_by_id ts tid = some t ∧
      (u = t.buyer_id ∨ u = t.seller_id) ∧
      Transaction.update_status ts tid s m u now
        = (true, (updateWhere ts tid (fun _ => true)
            (Transaction.statusUpdateDoc s m u now)).1) := by
  cases hfind : Transaction.find_by_id ts tid with
  | none => exact Or.inl (by simp [Transaction.update_status, hfind])
  | some t =>
    by_cases hg : u ≠ t.buyer_id ∧ u ≠ t.seller_id
    · exact Or.inl (by simp [Transaction.update_status, hfind, hg])
    · have hparty : u = t.buyer_id ∨ u = t.seller_id := by
        by_contra hcon
        push_neg at hcon
        exact hg hcon
      exact Or.inr ⟨t, rfl, hparty,
        Transaction.update_status_spec hfind hparty s m now⟩

theorem Transaction.seller_confirm_cases (ts : TxnCol) (tid seller_id pm : String)
    (now : Nat) :
    Transaction.seller_confirm ts tid seller_id pm now = (false, ts) ∨
    ∃ t, Transaction.find_by_id ts tid = some t ∧ t.seller_id = seller_id ∧
      Transaction.seller_confirm ts tid seller_id pm now
        = (true, (updateWhere ts tid (fun _ => true)
            (Transaction.sellerConfirmDoc pm seller_id now)).1) := by
  cases hfind : Transaction.find_by_id ts tid with
  | none => exact Or.inl (by simp [Transaction.seller_confirm, hfind])
  | some t =>
    by_cases hs : t.seller_id = seller_id
    · exact Or.inr ⟨t, rfl, hs, Transaction.seller_confirm_spec hfind hs pm now⟩
    · exact Or.inl (by simp [Transaction.seller_confirm, hfind, hs])

theorem Transaction.buyer_confirm_payment_cases (ts : TxnCol) (tid buyer_id : String)
    (now : Nat) :
    Transaction.buyer_confirm_payment ts tid buyer_id now = (false, ts) ∨
    ∃ t, Transaction.find_by_id ts tid = some t ∧ t.buyer_id = buyer_id ∧
      Transaction.buyer_confirm_payment ts tid buyer_id now
        = (true, (updateWhere ts tid (fun _ => true)
            (Transaction.buyerConfirmDoc buyer_id now)).1) := by
  cases hfind : Transaction.find_by_id ts tid with
  | none => exact Or.inl (by simp [Transaction.buyer_confirm_payment, hfind])
  | some t =>
    by_cases hb : t.buyer_id = buyer_id
    · exact Or.inr ⟨t, rfl, hb,
        Transaction.buyer_confirm_payment_spec hfind hb now⟩
    · exact Or.inl (by simp [Transaction.buyer_confirm_payment, hfind, hb])

theorem Transaction.add_note_cases (ts : TxnCol) (tid u note : String) (now : Nat) :
    Transaction.add_note ts tid u note now = (false, ts) ∨
    ∃ t, Transaction.find_by_id ts tid = some t ∧
      (u = t.buyer_id ∨ u = t.seller_id) ∧
      Transaction.add_note ts tid u note now
        = (true, (updateWhere ts tid (fun _ => true)
            (Transaction.addNoteDoc t.status note u now)).1) := by
  cases hfind : Transaction.find_by_id ts tid with
  | none => exact Or.inl (by simp [Transaction.add_note, hfind])
  | some t =>
    by_cases hg : u ≠ t.buyer_id ∧ u ≠ t.seller_id
    · exact Or.inl (by simp [Transaction.add_note, hfind, hg])
    · have hparty : u = t.buyer_id ∨ u = t.seller_id := by
        by_contra hcon
        push_neg at hcon
        exact hg hcon
      exact Or.inr ⟨t, rfl, hparty, Transaction.add_note_spec hfind hparty note now⟩

theorem completedAtOf_updateWhere (ts : TxnCol) (tid : String)
    (cond : Transaction → Bool) (f : Transaction → Transaction)
    (hf : ∀ t, (f t).completed_at = t.completed_at) :
    completedAtOf (updateWhere ts tid cond f).1 tid = completedAtOf ts tid := by
  unfold completedAtOf
  rw [findDoc_updateWhere, if_pos rfl]
  cases h : findDoc ts tid with
  | none => rfl
  | some t => by_cases hc : cond t <;> simp [hc, hf]

/-- C7 counterexample: `completed_at` is not write-once.  On a store holding
an already completed transaction (`completed_at = some 5`, both flags set),
a second Complete call by the buyer at time 9 overwrites it to `some 9`. -/
theorem C7_completed_at_overwritten :
    completedTxn.completed_at = some 5 ∧
    (findDoc (Routes.complete_transaction completedDB "buyer1" tid0 9).2.transactions
        tid0).map Transaction.completed_at = some (some 9) := by decide

/-- C7 amended: `completed_at` starts absent, every successful `update_status`
to `completada` stamps it with the current time, and every other ledger
operation preserves it.  It is therefore written at the first completion and
only overwritten when a completion transition is repeated (nothing prevents
re-completing, see the counterexample). -/
theorem C7_completed_at_behaviour (ts : TxnCol) (tid : String) :
    (∀ product_id buyer_id seller_id product_data code now,
      (Transaction.createData product_id buyer_id seller_id product_data code
        now).completed_at = none) ∧
    (∀ s m u now, s ≠ TStatus.completada →
      completedAtOf (Transaction.update_status ts tid s m u now).2 tid
        = completedAtOf ts tid) ∧
    (∀ m u now, (Transaction.update_status ts tid TStatus.completada m u now).1
        = true →
      completedAtOf (Transaction.update_status ts tid TStatus.completada m u now).2
          tid = some (some now)) ∧
    (∀ u pm now,
      completedAtOf (Transaction.seller_confirm ts tid u pm now).2 tid
        = completedAtOf ts tid) ∧
    (∀ u now,
      completedAtOf (Transaction.buyer_confirm_payment ts tid u now).2 tid
        = completedAtOf ts tid) ∧
    (∀ u note now,
      completedAtOf (Transaction.add_note ts tid u note now).2 tid
        = completedAtOf ts tid) := by
  refine ⟨fun _ _ _ _ _ _ => rfl, ?_, ?_, ?_, ?_, ?_⟩
  · intro s m u now hs
    rcases Transaction.update_status_cases ts tid s m u now with h | ⟨t, _, _, h⟩
    · rw [h]
    · rw [h]
      exact completedAtOf_updateWhere ts tid _ _
        (fun t2 => by simp [Transaction.statusUpdateDoc, hs])
  · intro m u now hok
    rcases Transaction.update_status_cases ts tid TStatus.completada m u now with
      h | ⟨t, hfind, _, h⟩
    · rw [h] at hok
      exact absurd hok (by simp)
    · rw [h]
      unfold completedAtOf
      rw [findDoc_updateWhere, if_pos rfl, (Transaction.txn_find_by_id_elim hfind).2]
      simp [Transaction.statusUpdateDoc]
  · intro u pm now
    rcases Transaction.seller_confirm_cases ts tid u pm now with h | ⟨t, _, _, h⟩
    · rw [h]
    · rw [h]
      exact completedAtOf_updateWhere ts tid _ _ (fun t2 => rfl)
  · intro u now
    rcases Transaction.buyer_confirm_payment_cases ts tid u now with h | ⟨t, _, _, h⟩
    · rw [h]
    · rw [h]
      exact completedAtOf_updateWhere ts tid _ _ (fun t2 => rfl)
  · intro u note now
    rcases Transaction.add_note_cases ts tid u note now with h | ⟨t, _, _, h⟩
    · rw [h]
    · rw [h]
      exact completedAtOf_updateWhere ts tid _ _ (fun t2 => rfl)

/-- C9 counterexample: a caller who is neither buyer nor seller gets HTTP 400
from AddNote — not the 403 Forbidden the claim states — and the store is
unchanged. -/
theorem C9_nonparty_gets_400_not_403 :
    (Routes.add_note pendingDB "intruso" tid0 "hola" 3).1
      = { success := false, httpStatus := 400,
          message := "No se pudo agregar la nota" } ∧
    (Routes.add_note pendingDB "intruso" tid0 "hola" 3).2 = pendingDB ∧
    "intruso" ≠ baseTxn.buyer_id ∧ "intruso" ≠ baseTxn.seller_id := by decide

/-- C9 amended: AddNote answers 400 on an empty note; a caller who is neither
buyer nor seller also gets 400 (the route folds the model's `False` into the
same 400, never 403), with the store unchanged; a party's non-empty note
appends exactly one timeline entry carrying the note and leaves the status
unchanged. -/
theorem C9_add_note_behaviour (db : DB) (current_user_id transaction_id note : String)
    (now : Nat) :
    (note = "" →
      Routes.add_note db current_user_id transaction_id note now
        = ({ success := false, httpStatus := 400,
             message := "La nota no puede estar vacía" }, db)) ∧
    (∀ t, note ≠ "" →
      Transaction.find_by_id db.transactions transaction_id = some t →
      current_user_id ≠ t.buyer_id → current_user_id ≠ t.seller_id →
      Routes.add_note db current_user_id transaction_id note now
        = ({ success := false, httpStatus := 400,
             message := "No se pudo agregar la nota" }, db)) ∧
    (∀ t, note ≠ "" →
      Transaction.find_by_id db.transactions transaction_id = some t →
      (current_user_id = t.buyer_id ∨ current_user_id = t.seller_id) →
      (Routes.add_note db current_user_id transaction_id note now).1
        = { success := true, httpStatus := 200,
            message := "Nota agregada exitosamente" } ∧
      timelineOf (Routes.add_note db current_user_id transaction_id note
          now).2.transactions transaction_id
        = timelineOf db.transactions transaction_id
          ++ [{ status := t.status, timestamp := now,
                message := "Nota agregada: " ++ note,
                by_user_id := some current_user_id }] ∧
      (findDoc (Routes.add_note db current_user_id transaction_id note
          now).2.transactions transaction_id).map Transaction.status
        = some t.status) := by
  refine ⟨fun h => by simp [Routes.add_note, h], ?_, ?_⟩
  · intro t hnote ht h1 h2
    simp [Routes.add_note, hnote, Transaction.add_note_not_party ht h1 h2]
  · intro t hnote ht hparty
    have hfd := (Transaction.txn_find_by_id_elim ht).2
    have hmodel := Transaction.add_note_spec ht hparty note now
    have hroute : Routes.add_note db current_user_id transaction_id note now
        = ({ success := true, httpStatus := 200,
             message := "Nota agregada exitosamente" },
           { db with transactions := (updateWhere db.transactions transaction_id
               (fun _ => true)
               (Transaction.addNoteDoc t.status note current_user_id now)).1 }) := by
      simp [Routes.add_note, hnote, hmodel]
    rw [hroute]
    refine ⟨rfl, ?_, ?_⟩
    · unfold timelineOf
      rw [findDoc_updateWhere, if_pos rfl, hfd]
      rfl
    · rw [findDoc_updateWhere, if_pos rfl, hfd]
      rfl

theorem timelineOf_update_append {ts : TxnCol} {tid : String} {t : Transaction}
    (hfd : findDoc ts tid = some t) (f : Transaction → Transaction)
    (e : TimelineEvent) (he : (f t).timeline = t.timeline ++ [e]) :
    timelineOf (updateWhere ts tid (fun _ => true) f).1 tid
      = timelineOf ts tid ++ [e] := by
  unfold timelineOf
  rw [findDoc_updateWhere, if_pos rfl, hfd]
  simp [he]

theorem timelineOf_applyTxOp (ts : TxnCol) (tid : String) (op : TxOp) :
    timelineOf ts tid <+: timelineOf (applyTxOp ts tid op) tid := by
  cases op with
  | upd s m u now =>
    rcases Transaction.update_status_cases ts tid s m u now with h | ⟨t, hfind, _, h⟩
    · simp only [applyTxOp, h]
      exact List.prefix_rfl
    · simp only [applyTxOp, h]
      rw [timelineOf_update_append (Transaction.txn_find_by_id_elim hfind).2 _ _ rfl]
      exact List.prefix_append _ _
  | sconf u pm now =>
    rcases Transaction.seller_confirm_cases ts tid u pm now with h | ⟨t, hfind, _, h⟩
    · simp only [applyTxOp, h]
      exact List.prefix_rfl
    · simp only [applyTxOp, h]
      rw [timelineOf_update_append (Transaction.txn_find_by_id_elim hfind).2 _ _ rfl]
      exact List.prefix_append _ _
  | bconf u now =>
    rcases Transaction.buyer_confirm_payment_cases ts tid u now with
      h | ⟨t, hfind, _, h⟩
    · simp only [applyTxOp, h]
      exact List.prefix_rfl
    · simp only [applyTxOp, h]
      rw [timelineOf_update_append (Transaction.txn_find_by_id_elim hfind).2 _ _ rfl]
      exact List.prefix_append _ _
  | note u n now =>
    rcases Transaction.add_note_cases ts tid u n now with h | ⟨t, hfind, _, h⟩
    · simp only [applyTxOp, h]
      exact List.prefix_rfl
    · simp only [applyTxOp, h]
      rw [timelineOf_update_append (Transaction.txn_find_by_id_elim hfind).2 _ _ rfl]
      exact List.prefix_append _ _

theorem timelineOf_applyTxOps (ts : TxnCol) (tid : String) (ops : List TxOp) :
    timelineOf ts tid <+: timelineOf (applyTxOps ts tid ops) tid := by
  induction ops generalizing ts with
  | nil => exact List.prefix_rfl
  | cons op rest ih =>
    simp only [applyTxOps, List.foldl_cons]
    exact (timelineOf_applyTxOp ts tid op).trans (ih _)

/-- C6: each status-changing ledger operation either fails leaving the
collection untouched, or appends exactly one timeline entry (its own event);
the creation document carries exactly the one "Reserva creada" entry; and
along any sequence of ledger operations the earlier timeline stays a prefix. -/
theorem C6_timeline_append_only (ts : TxnCol) (tid : String) :
    (∀ s m u now,
      ((Transaction.update_status ts tid s m u now).1 = true →
        timelineOf (Transaction.update_status ts tid s m u now).2 tid
          = timelineOf ts tid
            ++ [{ status := s, timestamp := now, message := m,
                  by_user_id := some u }]) ∧
      ((Transaction.update_status ts tid s m u now).1 = false →
        (Transaction.update_status ts tid s m u now).2 = ts)) ∧
    (∀ u pm now,
      ((Transaction.seller_confirm ts tid u pm now).1 = true →
        timelineOf (Transaction.seller_confirm ts tid u pm now).2 tid
          = timelineOf ts tid
            ++ [{ status := TStatus.confirmada, timestamp := now,
                  message := "Vendedor confirmó la venta",
                  by_user_id := some u }]) ∧
      ((Transaction.seller_confirm ts tid u pm now).1 = false →
        (Transaction.seller_confirm ts tid u pm now).2 = ts)) ∧
    (∀ u now,
      ((Transaction.buyer_confirm_payment ts tid u now).1 = true →
        timelineOf (Transaction.buyer_confirm_payment ts tid u now).2 tid
          = timelineOf ts tid
            ++ [{ status := TStatus.pago_confirmado, timestamp := now,
                  message := "Comprador confirmó el pago",
                  by_user_id := some u }]) ∧
      ((Transaction.buyer_confirm_payment ts tid u now).1 = false →
        (Transaction.buyer_confirm_payment ts tid u now).2 = ts)) ∧
    (∀ product_id buyer_id seller_id product_data code now,
      (Transaction.createData product_id buyer_id seller_id product_data code
          now).timeline
        = [{ status := TStatus.pendiente, timestamp := now,
             message := "Reserva creada", by_user_id := none }]) ∧
    (∀ ops, timelineOf ts tid <+: timelineOf (applyTxOps ts tid ops) tid) := by
  refine ⟨?_, ?_, ?_, fun _ _ _ _ _ _ => rfl, timelineOf_applyTxOps ts tid⟩
  · intro s m u now
    rcases Transaction.update_status_cases ts tid s m u now with h | ⟨t, hfind, _, h⟩
    · rw [h]
      exact ⟨fun hcontra => absurd hcontra (by simp), fun _ => rfl⟩
    · rw [h]
      refine ⟨fun _ => ?_, fun hcontra => absurd hcontra (by simp)⟩
      exact timelineOf_update_append (Transaction.txn_find_by_id_elim hfind).2 _ _ rfl
  · intro u pm now
    rcases Transaction.seller_confirm_cases ts tid u pm now with h | ⟨t, hfind, _, h⟩
    · rw [h]
      exact ⟨fun hcontra => absurd hcontra (by simp), fun _ => rfl⟩
    · rw [h]
      refine ⟨fun _ => ?_, fun hcontra => absurd hcontra (by simp)⟩
      exact timelineOf_update_append (Transaction.txn_find_by_id_elim hfind).2 _ _ rfl
  · intro u now
    rcases Transaction.buyer_confirm_payment_cases ts tid u now with
      h | ⟨t, hfind, _, h⟩
    · rw [h]
      exact ⟨fun hcontra => absurd hcontra (by simp), fun _ => rfl⟩
    · rw [h]
      refine ⟨fun _ => ?_, fun hcontra => absurd hcontra (by simp)⟩
      exact timelineOf_update_append (Transaction.txn_find_by_id_elim hfind).2 _ _ rfl

theorem generate_transaction_code_format (rng : Nat → Nat) (attempt : Nat) :
    ∃ suffix : List Char,
      generate_transaction_code rng attempt = "TRD-" ++ String.mk suffix ∧
      suffix.length = 6 ∧ ∀ c ∈ suffix, c ∈ codeChars := by
  refine ⟨(List.range 6).map (fun i => pickChar (rng (6 * attempt + i))), rfl,
    by simp, ?_⟩
  intro c hc
  rw [List.mem_map] at hc
  obtain ⟨i, _, rfl⟩ := hc
  exact List.get_mem _ _ _

theorem genUniqueCode_spec {ts : TxnCol} {rng : Nat → Nat} :
    ∀ fuel attempt code, genUniqueCode ts rng fuel attempt = some code →
      (∃ attempt2, code = generate_transaction_code rng attempt2) ∧
      codeExists ts code = false := by
  intro fuel
  induction fuel with
  | zero => intro attempt code h; exact absurd h (by simp [genUniqueCode])
  | succ n ih =>
    intro attempt code h
    unfold genUniqueCode at h
    by_cases hc : codeExists ts (generate_transaction_code rng attempt)
    · rw [if_pos hc] at h
      exact ih _ _ h
    · rw [if_neg hc] at h
      injection h with h
      subst h
      exact ⟨⟨attempt, rfl⟩, by simpa using hc⟩

theorem codeExists_false {ts : TxnCol} {code : String}
    (h : codeExists ts code = false) :
    ∀ doc ∈ ts, doc.2.transaction_code ≠ code := by
  intro doc hd
  rw [codeExists, List.any_eq_false] at h
  have := h doc hd
  simpa using this

/-- C8: every code `Transaction.create` returns has the fixed prefix "TRD-"
followed by exactly 6 characters of the uppercase-alphanumeric alphabet, and
the regenerate-on-collision loop guarantees it differs from every stored
code, so pairwise-distinct codes stay pairwise distinct after the insert. -/
theorem C8_code_format_and_unique (ts : TxnCol)
    (product_id buyer_id seller_id : String) (product_data : Product)
    (rng : Nat → Nat) (fuel : Nat) (new_id : String) (now : Nat)
    (tid code : String) (ts2 : TxnCol)
    (h : Transaction.create ts product_id buyer_id seller_id product_data rng
      fuel new_id now = some (tid, code, ts2)) :
    (∃ suffix : List Char, code = "TRD-" ++ String.mk suffix ∧
      suffix.length = 6 ∧ ∀ c ∈ suffix, c ∈ codeChars) ∧
    (∀ doc ∈ ts, doc.2.transaction_code ≠ code) ∧
    (ts2.map (fun doc => doc.2.transaction_code)
      = ts.map (fun doc => doc.2.transaction_code) ++ [code]) ∧
    ((ts.map (fun doc => doc.2.transaction_code)).Nodup →
      (ts2.map (fun doc => doc.2.transaction_code)).Nodup) := by
  cases hg : genUniqueCode ts rng fuel 0 with
  | none =>
    rw [Transaction.create, hg] at h
    exact absurd h (by simp)
  | some c =>
    rw [Transaction.create, hg] at h
    simp only [Option.some.injEq, Prod.mk.injEq] at h
    obtain ⟨-, rfl, rfl⟩ := h
    obtain ⟨⟨attempt2, hfmt⟩, hfree⟩ := genUniqueCode_spec fuel 0 _ hg
    have hfresh := codeExists_false hfree
    have hmap : (ts ++ [(new_id, Transaction.createData product_id buyer_id
          seller_id product_data c now)]).map (fun doc => doc.2.transaction_code)
        = ts.map (fun doc => doc.2.transaction_code) ++ [c] := by
      simp [Transaction.createData]
    refine ⟨hfmt ▸ generate_transaction_code_format rng attempt2, hfresh, hmap, ?_⟩
    intro hnd
    rw [hmap, List.nodup_append]
    refine ⟨hnd, List.nodup_singleton c, ?_⟩
    intro x hx hx1
    rw [List.mem_singleton] at hx1
    subst hx1
    rw [List.mem_map] at hx
    obtain ⟨doc, hdoc, hdc⟩ := hx
    exact hfresh doc hdoc hdc

/-- C8 witness: from an empty store with a constant entropy stream the first
draw "TRD-AAAAAA" is returned and has the claimed format. -/
theorem C8_code_format_witness :
    ∃ suffix : List Char, "TRD-AAAAAA" = "TRD-" ++ String.mk suffix ∧
      suffix.length = 6 ∧ ∀ c ∈ suffix, c ∈ codeChars :=
  (C8_code_format_and_unique [] pid0 "buyer1" "seller1" baseProduct
    (fun _ => 0) 1 tid0 0 tid0 "TRD-AAAAAA"
    [(tid0, Transaction.createData pid0 "buyer1" "seller1" baseProduct
      "TRD-AAAAAA" 0)] (by decide)).1

end TRADEco
